import Mathlib

/-!
# Verification of the delivery module of the coffee-roaster simulator

A shallow embedding of `src/src/App.jsx` from the
`cheihsall/simulateur-mecanique` repository, together with theorems about
the retrying delivery function `sendWithRetry`, the payload construction in
`finishAndSend`, the parameter parsing in `parseParams`, and the temperature
update of the simulation tick.

Modelling conventions:
* `async`/`await` sequencing is pure in the model; each call to
  `sendWithRetry` is given a `transport` function mapping the attempt index
  (0-based) to the outcome the network would produce on that attempt.
* Observable effects (network requests, `setTimeout` backoff suspensions)
  are collected in an explicit trace (`List Event`).
* A JS `throw v` out of `sendWithRetry` is modelled as `Except.error v`;
  the thrown value is `Option ε` because `lastErr` is initialised to `null`.
* JS string truthiness (`x || d`) is modelled by `jsOr` / `strOr`:
  `null` and `""` are falsy, every other string is truthy.
* JS numbers are modelled as `Int` where the source uses integer counters
  and as `Rat` for the temperature arithmetic (the clamping claim is an
  order-theoretic fact, independent of rounding).
-/

set_option autoImplicit false

namespace Simulateur

/-- JS `o || d` where `o : String | null`: `null` and `""` are falsy. -/
def jsOr (o : Option String) (d : String) : String :=
  match o with
  | none => d
  | some s => if s = "" then d else s

/-- JS `s || d` for a string `s`: `""` is falsy. -/
def strOr (s d : String) : String :=
  if s = "" then d else s

/-- The raw query string of the hosting page: `p.get(k)` returns the value
of key `k` or `null`; `Option String` models that. -/
structure RawQuery where
  session_id : Option String
  learner_id : Option String
  resource_id : Option String
  api_key : Option String
  callback_url : Option String
  mode : Option String
  deriving Repr, DecidableEq

/-- The output of `parseParams` (App.jsx lines 6-14): the five listed keys
are copied as-is (possibly `null`), and `out.mode = p.get("mode") || "learning"`. -/
structure SessionParams where
  session_id : Option String
  learner_id : Option String
  resource_id : Option String
  api_key : Option String
  callback_url : Option String
  mode : String
  deriving Repr, DecidableEq

/-- Embedding of `parseParams` (App.jsx lines 6-14). -/
def parseParams (q : RawQuery) : SessionParams :=
  { session_id := q.session_id
    learner_id := q.learner_id
    resource_id := q.resource_id
    api_key := q.api_key
    callback_url := q.callback_url
    mode := jsOr q.mode "learning" }

/-- One HTTP request as issued by `axios.post` inside `sendWithRetry`
(App.jsx lines 23-29): method POST, the url, the payload as body, the two
headers, and the per-attempt timeout. `π` is the payload type (opaque to
the delivery module). -/
structure Request (π : Type) where
  method : String
  url : String
  body : π
  contentType : String
  xApiKey : String
  timeout : Nat
  deriving Repr, DecidableEq

/-- The request constructed on every attempt (App.jsx lines 23-29). -/
def mkRequest {π : Type} (url : String) (payload : π) (apiKey : String) :
    Request π :=
  { method := "POST"
    url := url
    body := payload
    contentType := "application/json"
    xApiKey := apiKey
    timeout := 10000 }

/-- Result of one network attempt: `ok` carries `res.data` (type `α`),
`fail` carries the caught error (type `ε`). -/
inductive AttemptOutcome (α ε : Type) where
  | ok (data : α)
  | fail (err : ε)
  deriving Repr, DecidableEq

/-- Observable effect of the delivery module: an outbound request, or a
backoff suspension of the given number of milliseconds
(`await new Promise(r => setTimeout(r, delay))`). -/
inductive Event (π : Type) where
  | req (r : Request π)
  | wait (ms : Nat)
  deriving Repr, DecidableEq

/-- The loop of `sendWithRetry` (App.jsx lines 21-37).

The JS loop runs `while (attempt < maxAttempts)`, where `attempt` starts at
0 and increases by exactly 1 on each failed iteration (a successful
iteration returns).  `remaining` is `toNat (maxAttempts - attempt)`, so
`remaining = 0` is exactly the exit condition `¬ (attempt < maxAttempts)`;
`attempt` itself is carried so that the backoff exponent and the transport
index match the source.  On failure the source *always* suspends for
`2^attempt * 500` ms (post-increment `attempt`) before re-testing the loop
condition — there is no "if attempts remain" guard. -/
def sendLoop {π α ε : Type} (url : String) (payload : π) (apiKey : String)
    (transport : Nat → AttemptOutcome α ε) (attempt : Nat)
    (lastErr : Option ε) (remaining : Nat) :
    List (Event π) × Except (Option ε) α :=
  match remaining with
  | 0 => ([], Except.error lastErr)
  | r + 1 =>
    let rq := mkRequest url payload apiKey
    match transport attempt with
    | AttemptOutcome.ok data => ([Event.req rq], Except.ok data)
    | AttemptOutcome.fail err =>
      let attempt1 := attempt + 1
      let delay := 2 ^ attempt1 * 500
      let rest := sendLoop url payload apiKey transport attempt1 (some err) r
      (Event.req rq :: Event.wait delay :: rest.1, rest.2)

/-- Embedding of `sendWithRetry` (App.jsx lines 18-39): returns the trace
of observable effects together with the result of the function (`Except.ok` for
`return res.data`, `Except.error` for `throw lastErr`).  `maxAttempts` is
an `Int` since JS does not restrict it to naturals; the loop runs while
`attempt < maxAttempts`, i.e. `maxAttempts.toNat` times at most. -/
def sendWithRetry {π α ε : Type} (url : String) (payload : π)
    (apiKey : String) (transport : Nat → AttemptOutcome α ε)
    (maxAttempts : Int := 3) : List (Event π) × Except (Option ε) α :=
  sendLoop url payload apiKey transport 0 none maxAttempts.toNat

/-- The requests contained in a trace, in order. -/
def requests {π : Type} : List (Event π) → List (Request π)
  | [] => []
  | Event.req r :: tr => r :: requests tr
  | Event.wait _ :: tr => requests tr

/-- The backoff durations contained in a trace, in order (ms). -/
def waits {π : Type} : List (Event π) → List Nat
  | [] => []
  | Event.req _ :: tr => waits tr
  | Event.wait d :: tr => d :: waits tr

/-- Number of network attempts recorded in a trace. -/
def numRequests {π : Type} (tr : List (Event π)) : Nat :=
  (requests tr).length

/-- Grade derivation from the integer score (App.jsx line 126):
`score >= 85 ? "A" : (score >= 70 ? "B" : "C")`. -/
def grade (score : Int) : String :=
  if 85 ≤ score then "A" else if 70 ≤ score then "B" else "C"

/-- The `resource_id` field of the result payload (App.jsx line 117):
`sessionParams.resource_id || "resource-unknown"`. -/
def payloadResourceId (p : SessionParams) : String :=
  jsOr p.resource_id "resource-unknown"

/-- The `learner_id` field of the result payload (App.jsx line 118):
`sessionParams.learner_id || "learner-unknown"`. -/
def payloadLearnerId (p : SessionParams) : String :=
  jsOr p.learner_id "learner-unknown"

/-- The `mode` field of the result payload (App.jsx line 119):
`sessionParams.mode || "learning"`, applied to the string produced by
`parseParams` (which already defaulted it). -/
def payloadMode (p : SessionParams) : String :=
  strOr p.mode "learning"

/-- The response body of a successful attempt, as far as `finishAndSend`
inspects it: `res?.message` may be absent. -/
structure AckData where
  message : Option String
  deriving Repr, DecidableEq

/-- JS `s.startsWith(pre)` (also `String.startsWith` of Lean), modelled on
the character lists so that it evaluates inside the kernel: `pre` is a
prefix of `s`. -/
def jsStartsWith (s pre : String) : Bool :=
  pre.data.isPrefixOf s.data

/-- Outcome of the delivery phase of `finishAndSend` as classified by the
taxonomy of the spec: a success acknowledgment text, a configuration error
(the locally thrown HTTPS-check `Error`), or a terminal delivery error
carrying the value thrown by `sendWithRetry`. -/
inductive Outcome (ε : Type) where
  | ack (text : String)
  | configError (msg : String)
  | deliveryError (cause : Option ε)
  deriving Repr, DecidableEq

/-- The delivery phase of `finishAndSend` (App.jsx lines 148-157): inside
`try`, throw if `callback_url` does not start with `"https://"` (caught by
the same `catch`, so no request is made and no retry occurs); otherwise
call `sendWithRetry(callback_url, payload, api_key, 3)`; a success message
uses `res?.message || "OK"`; a thrown value from `sendWithRetry` becomes
the terminal failure. -/
def finishSendPhase {π ε : Type} (callback_url : String) (payload : π)
    (apiKey : String) (transport : Nat → AttemptOutcome AckData ε) :
    List (Event π) × Outcome ε :=
  if jsStartsWith callback_url "https://" then
    match sendWithRetry callback_url payload apiKey transport 3 with
    | (tr, Except.ok res) => (tr, Outcome.ack (jsOr res.message "OK"))
    | (tr, Except.error e) => (tr, Outcome.deliveryError e)
  else
    ([], Outcome.configError "callback_url doit être en HTTPS")

/-- Expected shape of the trace under permanent failure, written out from
the description in the spec of the retry schedule for comparison with the trace
`sendWithRetry` actually produces: starting at attempt counter `attempt`
with `r` attempts left, each iteration issues one request and then waits
`2 ^ (attempt + 1) * 500` ms. -/
def allFailTrace {π : Type} (url : String) (payload : π) (apiKey : String) :
    Nat → Nat → List (Event π)
  | _, 0 => []
  | attempt, r + 1 =>
    Event.req (mkRequest url payload apiKey) ::
      Event.wait (2 ^ (attempt + 1) * 500) ::
        allFailTrace url payload apiKey (attempt + 1) r

/-- The temperature update performed on each simulation tick
(App.jsx line 69): `Math.max(100, Math.min(250, t + drift))` where
`drift = (Math.random()-0.5)*4`.  Modelled over `Rat`: the clamp is an
order-theoretic operation, identical over any linear ordered field. -/
def tickTemperature (t drift : Rat) : Rat :=
  max 100 (min 250 (t + drift))

/-- Concrete session parameters whose `learner_id` is present in the URL
but bound to the empty string (`?learner_id=`), used as a test input. -/
def emptyLearnerParams : SessionParams where
  session_id := none
  learner_id := some ""
  resource_id := none
  api_key := none
  callback_url := none
  mode := "learning"

/-- Concrete session parameters with a non-empty `learner_id` and no
`resource_id`, used as a test input. -/
def bobParams : SessionParams where
  session_id := none
  learner_id := some "bob"
  resource_id := none
  api_key := none
  callback_url := none
  mode := "learning"

/-- A raw query with every parameter absent, used as a test input. -/
def emptyQuery : RawQuery where
  session_id := none
  learner_id := none
  resource_id := none
  api_key := none
  callback_url := none
  mode := none

/-! ## Helper lemmas about the retry loop -/

section Loop

variable {π α ε : Type}

/-- Under a permanently failing transport, the loop produces the expected
request/wait interleaving and ends by throwing the last error seen. -/
theorem sendLoop_allFail (url : String) (payload : π) (apiKey : String)
    (transport : Nat → AttemptOutcome α ε) (e : Nat → ε)
    (ht : ∀ i, transport i = AttemptOutcome.fail (e i)) :
    ∀ (r attempt : Nat) (lastErr : Option ε),
      sendLoop url payload apiKey transport attempt lastErr r =
        (allFailTrace url payload apiKey attempt r,
         Except.error (if r = 0 then lastErr else some (e (attempt + r - 1)))) := by
  intro r
  induction r with
  | zero =>
    intro attempt lastErr
    simp [sendLoop, allFailTrace]
  | succ r ih =>
    intro attempt lastErr
    have hstep : sendLoop url payload apiKey transport attempt lastErr (r + 1) =
        (Event.req (mkRequest url payload apiKey) ::
          Event.wait (2 ^ (attempt + 1) * 500) ::
          (sendLoop url payload apiKey transport (attempt + 1) (some (e attempt)) r).1,
         (sendLoop url payload apiKey transport (attempt + 1) (some (e attempt)) r).2) := by
      rw [sendLoop, ht attempt]
    rw [hstep, ih (attempt + 1) (some (e attempt))]
    have htrace : allFailTrace url payload apiKey attempt (r + 1) =
        Event.req (mkRequest url payload apiKey) ::
          Event.wait (2 ^ (attempt + 1) * 500) ::
          allFailTrace url payload apiKey (attempt + 1) r := rfl
    rw [htrace]
    rcases r with _ | r
    · simp
    · have herr : attempt + 1 + (r + 1) - 1 = attempt + (r + 1 + 1) - 1 := by omega
      simp only [Nat.succ_ne_zero, if_false, herr]

/-- Every request in the expected all-fail trace is the fixed request. -/
theorem requests_allFailTrace (url : String) (payload : π) (apiKey : String) :
    ∀ (r attempt : Nat),
      requests (allFailTrace url payload apiKey attempt r) =
        List.replicate r (mkRequest url payload apiKey) := by
  intro r
  induction r with
  | zero => intro attempt; simp [allFailTrace, requests]
  | succ r ih =>
    intro attempt
    simp [allFailTrace, requests, ih (attempt + 1), List.replicate_succ]

/-- The wait durations in the expected all-fail trace, in closed form. -/
theorem waits_allFailTrace (url : String) (payload : π) (apiKey : String) :
    ∀ (r attempt : Nat),
      waits (allFailTrace url payload apiKey attempt r) =
        (List.range r).map (fun i => 2 ^ (attempt + i + 1) * 500) := by
  intro r
  induction r with
  | zero => intro attempt; simp [allFailTrace, waits]
  | succ r ih =>
    intro attempt
    simp only [allFailTrace, waits, ih (attempt + 1)]
    rw [List.range_succ_eq_map, List.map_cons, List.map_map]
    refine congrArg₂ List.cons (by simp) ?_
    refine List.map_congr_left ?_
    intro i _
    simp only [Function.comp_apply]
    have hexp : attempt + 1 + i + 1 = attempt + (i + 1) + 1 := by omega
    rw [hexp]

/-- Every request issued by the loop, for an arbitrary transport, is the
fixed request built from the given url, payload and credential. -/
theorem sendLoop_requests_fixed (url : String) (payload : π) (apiKey : String)
    (transport : Nat → AttemptOutcome α ε) :
    ∀ (r attempt : Nat) (lastErr : Option ε),
      ∀ rq ∈ requests (sendLoop url payload apiKey transport attempt lastErr r).1,
        rq = mkRequest url payload apiKey := by
  intro r
  induction r with
  | zero =>
    intro attempt lastErr rq h
    simp [sendLoop, requests] at h
  | succ r ih =>
    intro attempt lastErr rq h
    rw [sendLoop] at h
    rcases hta : transport attempt with data | err <;> rw [hta] at h
    · simp [requests] at h
      exact h
    · simp only [requests] at h
      rcases List.mem_cons.mp h with h1 | h2
      · exact h1
      · exact ih (attempt + 1) (some err) rq h2

/-- Behaviour of `sendWithRetry` under a permanently failing transport, in closed form. -/
theorem sendWithRetry_allFail (url : String) (payload : π) (apiKey : String)
    (transport : Nat → AttemptOutcome α ε) (e : Nat → ε)
    (ht : ∀ i, transport i = AttemptOutcome.fail (e i)) (maxAttempts : Int) :
    sendWithRetry url payload apiKey transport maxAttempts =
      (allFailTrace url payload apiKey 0 maxAttempts.toNat,
       Except.error (if maxAttempts.toNat = 0 then none
                     else some (e (maxAttempts.toNat - 1)))) := by
  rw [sendWithRetry, sendLoop_allFail url payload apiKey transport e ht]
  rcases h : maxAttempts.toNat with _ | r
  · simp
  · simp

end Loop

/-! ## Claim theorems -/

/-- C1, as stated, is false: with `maxAttempts = 1` and a permanently
failing transport, `sendWithRetry` does make exactly 1 attempt, but it
performs 1 backoff wait (of `2^1*500 = 1000` ms, after the final failed
attempt, before throwing), not `n - 1 = 0` waits as the claim requires. -/
theorem sendWithRetry_waits_after_final_attempt :
    ¬ (numRequests (sendWithRetry "https://cb.example/x" "payload" "key123"
          (fun _ => AttemptOutcome.fail 0 : Nat → AttemptOutcome String Nat) 1).1 = 1 ∧
       waits (sendWithRetry "https://cb.example/x" "payload" "key123"
          (fun _ => AttemptOutcome.fail 0 : Nat → AttemptOutcome String Nat) 1).1 = []) := by
  intro h
  exact absurd h.2 (by decide)

/-- C1 (amended): for every `maxAttempts = n ≥ 1`, under permanent failure
`sendWithRetry` makes exactly `n` network attempts and performs exactly `n`
backoff waits of durations `2^1*500, …, 2^n*500` ms in that order — the
first `n-1` intervening between consecutive attempts and the last one
occurring after the final failed attempt, before the error is thrown. -/
theorem sendWithRetry_permanent_failure_schedule {π α ε : Type} (url : String)
    (payload : π) (apiKey : String) (transport : Nat → AttemptOutcome α ε)
    (e : Nat → ε) (ht : ∀ i, transport i = AttemptOutcome.fail (e i))
    (n : Nat) (hn : 1 ≤ n) :
    numRequests (sendWithRetry url payload apiKey transport (n : Int)).1 = n ∧
    waits (sendWithRetry url payload apiKey transport (n : Int)).1 =
      (List.range n).map (fun i => 2 ^ (i + 1) * 500) := by
  have hcast : ((n : Int)).toNat = n := by omega
  rw [sendWithRetry_allFail url payload apiKey transport e ht, hcast]
  constructor
  · show numRequests (allFailTrace url payload apiKey 0 n) = n
    rw [numRequests, requests_allFailTrace]
    exact List.length_replicate n _
  · show waits (allFailTrace url payload apiKey 0 n) = _
    rw [waits_allFailTrace]
    simp only [Nat.zero_add]

/-- Witness for the amended C1 at `n = 3`. -/
theorem sendWithRetry_permanent_failure_schedule_witness :
    numRequests (sendWithRetry "https://cb.example/x" "payload" "key123"
        (fun _ => AttemptOutcome.fail 0 : Nat → AttemptOutcome String Nat)
        ((3 : Nat) : Int)).1 = 3 ∧
    waits (sendWithRetry "https://cb.example/x" "payload" "key123"
        (fun _ => AttemptOutcome.fail 0 : Nat → AttemptOutcome String Nat)
        ((3 : Nat) : Int)).1 =
      (List.range 3).map (fun i => 2 ^ (i + 1) * 500) :=
  sendWithRetry_permanent_failure_schedule "https://cb.example/x" "payload"
    "key123" _ (fun _ => 0) (fun _ => rfl) 3 (by decide)

/-- C4: if the first network attempt succeeds, `sendWithRetry` makes
exactly one network call, performs no backoff wait, and returns the
acknowledgment immediately. -/
theorem sendWithRetry_first_success {π α ε : Type} (url : String)
    (payload : π) (apiKey : String) (transport : Nat → AttemptOutcome α ε)
    (a : α) (h0 : transport 0 = AttemptOutcome.ok a)
    (maxAttempts : Int) (h1 : 1 ≤ maxAttempts) :
    sendWithRetry url payload apiKey transport maxAttempts =
      ([Event.req (mkRequest url payload apiKey)], Except.ok a) ∧
    numRequests (sendWithRetry url payload apiKey transport maxAttempts).1 = 1 ∧
    waits (sendWithRetry url payload apiKey transport maxAttempts).1 = [] := by
  obtain ⟨m, hm⟩ : ∃ m, maxAttempts.toNat = m + 1 :=
    ⟨maxAttempts.toNat - 1, by omega⟩
  have h : sendWithRetry url payload apiKey transport maxAttempts =
      ([Event.req (mkRequest url payload apiKey)], Except.ok a) := by
    rw [sendWithRetry, hm, sendLoop, h0]
  exact ⟨h, by rw [h]; rfl, by rw [h]; rfl⟩

/-- Witness for C4. -/
theorem sendWithRetry_first_success_witness :
    sendWithRetry "https://cb.example/x" "payload" "key123"
        (fun _ => AttemptOutcome.ok "stored" : Nat → AttemptOutcome String Nat) 3 =
      ([Event.req (mkRequest "https://cb.example/x" "payload" "key123")],
       Except.ok "stored") ∧
    numRequests (sendWithRetry "https://cb.example/x" "payload" "key123"
        (fun _ => AttemptOutcome.ok "stored" : Nat → AttemptOutcome String Nat) 3).1 = 1 ∧
    waits (sendWithRetry "https://cb.example/x" "payload" "key123"
        (fun _ => AttemptOutcome.ok "stored" : Nat → AttemptOutcome String Nat) 3).1 = [] :=
  sendWithRetry_first_success "https://cb.example/x" "payload" "key123" _
    "stored" rfl 3 (by decide)

/-- C9: calling `sendWithRetry` with `maxAttempts ≤ 0` never runs the loop
body: no network call is made, no wait occurs, and the function throws the
initial `null` value of `lastErr` (modelled `Except.error none`), not an
`Error` object of any classified kind. -/
theorem sendWithRetry_nonpositive_maxAttempts {π α ε : Type} (url : String)
    (payload : π) (apiKey : String) (transport : Nat → AttemptOutcome α ε)
    (maxAttempts : Int) (h : maxAttempts ≤ 0) :
    sendWithRetry url payload apiKey transport maxAttempts =
      ([], Except.error none) := by
  have h0 : maxAttempts.toNat = 0 := by omega
  rw [sendWithRetry, h0, sendLoop]

/-- Witness for C9 at `maxAttempts = 0`. -/
theorem sendWithRetry_nonpositive_maxAttempts_witness :
    sendWithRetry "https://cb.example/x" "payload" "key123"
        (fun _ => AttemptOutcome.fail 0 : Nat → AttemptOutcome String Nat) 0 =
      ([], Except.error none) :=
  sendWithRetry_nonpositive_maxAttempts "https://cb.example/x" "payload"
    "key123" _ 0 (by decide)

/-- C2: for every payload (of any type) and every credential, if the
endpoint URL does not begin with `"https://"`, the delivery phase fails
immediately with the configuration error and zero network attempts are
made — no retry occurs, regardless of payload content. -/
theorem insecure_endpoint_config_error {π ε : Type} (callback_url : String)
    (payload : π) (apiKey : String)
    (transport : Nat → AttemptOutcome AckData ε)
    (h : jsStartsWith callback_url "https://" = false) :
    finishSendPhase callback_url payload apiKey transport =
      ([], Outcome.configError "callback_url doit être en HTTPS") ∧
    numRequests (finishSendPhase callback_url payload apiKey transport).1 = 0 := by
  have heq : finishSendPhase callback_url payload apiKey transport =
      ([], Outcome.configError "callback_url doit être en HTTPS") := by
    rw [finishSendPhase, h]
    simp
  exact ⟨heq, by rw [heq]; rfl⟩

/-- Witness for C2 at the scenario input of the spec, `http://insecure.example`. -/
theorem insecure_endpoint_config_error_witness :
    finishSendPhase "http://insecure.example" "payload" "key123"
        (fun _ => AttemptOutcome.fail 0 : Nat → AttemptOutcome AckData Nat) =
      ([], Outcome.configError "callback_url doit être en HTTPS") ∧
    numRequests (finishSendPhase "http://insecure.example" "payload" "key123"
        (fun _ => AttemptOutcome.fail 0 : Nat → AttemptOutcome AckData Nat)).1 = 0 :=
  insecure_endpoint_config_error "http://insecure.example" "payload" "key123"
    _ (by decide)

/-- C3: when all `maxAttempts ≥ 1` attempts fail, `sendWithRetry` throws
the last observed failure (the terminal delivery error wraps that cause),
and at the `finishAndSend` boundary the outcome is always either the
configuration error or the terminal delivery error carrying the last
cause from the last attempt — no other kind of exception crosses it. -/
theorem delivery_error_wraps_last_failure {π ε : Type} (url : String)
    (payload : π) (apiKey : String)
    (transport : Nat → AttemptOutcome AckData ε) (e : Nat → ε)
    (ht : ∀ i, transport i = AttemptOutcome.fail (e i))
    (maxAttempts : Int) (h1 : 1 ≤ maxAttempts) :
    (sendWithRetry url payload apiKey transport maxAttempts).2 =
      Except.error (some (e (maxAttempts.toNat - 1))) ∧
    (finishSendPhase url payload apiKey transport).2 =
      (if jsStartsWith url "https://" then Outcome.deliveryError (some (e 2))
       else Outcome.configError "callback_url doit être en HTTPS") := by
  constructor
  · rw [sendWithRetry_allFail url payload apiKey transport e ht]
    have hne : ¬ maxAttempts.toNat = 0 := by omega
    simp [hne]
  · rw [finishSendPhase]
    by_cases hu : jsStartsWith url "https://"
    · rw [if_pos hu, if_pos hu,
        sendWithRetry_allFail url payload apiKey transport e ht 3]
      rfl
    · rw [if_neg hu, if_neg hu]

/-- Witness for C3 with three failing attempts. -/
theorem delivery_error_wraps_last_failure_witness :
    (sendWithRetry "https://cb.example/x" "payload" "key123"
        (fun _ => AttemptOutcome.fail 0 : Nat → AttemptOutcome AckData Nat) 3).2 =
      Except.error (some 0) ∧
    (finishSendPhase "https://cb.example/x" "payload" "key123"
        (fun _ => AttemptOutcome.fail 0 : Nat → AttemptOutcome AckData Nat)).2 =
      Outcome.deliveryError (some 0) := by
  have h := delivery_error_wraps_last_failure "https://cb.example/x" "payload"
    "key123" (fun _ => AttemptOutcome.fail 0) (fun _ => 0) (fun _ => rfl)
    3 (by decide)
  refine ⟨h.1, ?_⟩
  rw [h.2]
  rfl

/-- C5: grade is a pure function of the integer score with fixed
thresholds: `score ≥ 85 → "A"`, `70 ≤ score < 85 → "B"`,
`score < 70 → "C"`. -/
theorem grade_thresholds (score : Int) :
    (85 ≤ score → grade score = "A") ∧
    (70 ≤ score → score < 85 → grade score = "B") ∧
    (score < 70 → grade score = "C") := by
  refine ⟨fun h => ?_, fun h1 h2 => ?_, fun h => ?_⟩
  · rw [grade, if_pos h]
  · rw [grade, if_neg (by omega), if_pos h1]
  · rw [grade, if_neg (by omega), if_neg (by omega)]

/-- Witness for C5 at the sample scores from the spec. -/
theorem grade_thresholds_witness :
    grade 85 = "A" ∧ grade 84 = "B" ∧ grade 70 = "B" ∧ grade 69 = "C" ∧
    grade 100 = "A" ∧ grade 0 = "C" :=
  ⟨(grade_thresholds 85).1 (by decide),
   (grade_thresholds 84).2.1 (by decide) (by decide),
   (grade_thresholds 70).2.1 (by decide) (by decide),
   (grade_thresholds 69).2.2 (by decide),
   (grade_thresholds 100).1 (by decide),
   (grade_thresholds 0).2.2 (by decide)⟩

/-- C6: every network attempt made by `sendWithRetry` is an HTTP POST
carrying `Content-Type: application/json` and `x-api-key` set to the
supplied credential, with a fixed 10,000 ms per-attempt timeout. -/
theorem every_attempt_post_json_timeout {π α ε : Type} (url : String)
    (payload : π) (apiKey : String) (transport : Nat → AttemptOutcome α ε)
    (maxAttempts : Int) :
    ∀ rq ∈ requests (sendWithRetry url payload apiKey transport maxAttempts).1,
      rq.method = "POST" ∧ rq.contentType = "application/json" ∧
      rq.xApiKey = apiKey ∧ rq.timeout = 10000 := by
  intro rq hrq
  rw [sendLoop_requests_fixed url payload apiKey transport
    maxAttempts.toNat 0 none rq hrq]
  exact ⟨rfl, rfl, rfl, rfl⟩

/-- Witness for C6 on a one-request trace. -/
theorem every_attempt_post_json_timeout_witness :
    (mkRequest "https://cb.example/x" "payload" "key123" : Request String).method = "POST" ∧
    (mkRequest "https://cb.example/x" "payload" "key123" : Request String).contentType = "application/json" ∧
    (mkRequest "https://cb.example/x" "payload" "key123" : Request String).xApiKey = "key123" ∧
    (mkRequest "https://cb.example/x" "payload" "key123" : Request String).timeout = 10000 :=
  every_attempt_post_json_timeout "https://cb.example/x" "payload" "key123"
    (fun _ => AttemptOutcome.ok "stored" : Nat → AttemptOutcome String Nat) 3
    (mkRequest "https://cb.example/x" "payload" "key123") (by decide)

/-- C8: the delivery module never alters the payload or the credential —
every request of every attempt carries exactly the payload value and
credential string that were handed in (in the model the payload is passed
by value, so it is never mutated or reordered). -/
theorem payload_and_credential_unchanged {π α ε : Type} (url : String)
    (payload : π) (apiKey : String) (transport : Nat → AttemptOutcome α ε)
    (maxAttempts : Int) :
    ∀ rq ∈ requests (sendWithRetry url payload apiKey transport maxAttempts).1,
      rq.body = payload ∧ rq.xApiKey = apiKey := by
  intro rq hrq
  rw [sendLoop_requests_fixed url payload apiKey transport
    maxAttempts.toNat 0 none rq hrq]
  exact ⟨rfl, rfl⟩

/-- Witness for C8 on a two-attempt failing trace. -/
theorem payload_and_credential_unchanged_witness :
    (mkRequest "https://cb.example/x" "payload" "key123" : Request String).body = "payload" ∧
    (mkRequest "https://cb.example/x" "payload" "key123" : Request String).xApiKey = "key123" :=
  payload_and_credential_unchanged "https://cb.example/x" "payload" "key123"
    (fun _ => AttemptOutcome.fail 0 : Nat → AttemptOutcome String Nat) 2
    (mkRequest "https://cb.example/x" "payload" "key123") (by decide)

/-- C7, as stated, is false: a `learner_id` that is *present* in the
Session Parameters but equal to the empty string is not copied unchanged —
JS `||` treats `""` as falsy, so the code substitutes the sentinel
`"learner-unknown"`. -/
theorem present_empty_learner_id_not_copied :
    emptyLearnerParams.learner_id = some "" ∧
    payloadLearnerId emptyLearnerParams = "learner-unknown" ∧
    payloadLearnerId emptyLearnerParams ≠ "" :=
  ⟨rfl, rfl, by decide⟩

/-- C7 (amended): `learner_id` and `resource_id` default to the sentinel
"unknown" strings when absent, and `mode` defaults to `"learning"` when
absent; a present value is copied unchanged when non-empty, while a
present-but-empty value is treated like an absent one (JS `||`
falsiness) and replaced by the default. -/
theorem payload_identifier_defaulting (p : SessionParams) (q : RawQuery) :
    (p.learner_id = none → payloadLearnerId p = "learner-unknown") ∧
    (p.learner_id = some "" → payloadLearnerId p = "learner-unknown") ∧
    (∀ s, s ≠ "" → p.learner_id = some s → payloadLearnerId p = s) ∧
    (p.resource_id = none → payloadResourceId p = "resource-unknown") ∧
    (p.resource_id = some "" → payloadResourceId p = "resource-unknown") ∧
    (∀ s, s ≠ "" → p.resource_id = some s → payloadResourceId p = s) ∧
    (q.mode = none → payloadMode (parseParams q) = "learning") ∧
    (q.mode = some "" → payloadMode (parseParams q) = "learning") ∧
    (∀ s, s ≠ "" → q.mode = some s → payloadMode (parseParams q) = s) := by
  refine ⟨fun h => ?_, fun h => ?_, fun s hs h => ?_, fun h => ?_, fun h => ?_,
    fun s hs h => ?_, fun h => ?_, fun h => ?_, fun s hs h => ?_⟩
  · simp [payloadLearnerId, jsOr, h]
  · simp [payloadLearnerId, jsOr, h]
  · simp [payloadLearnerId, jsOr, h, hs]
  · simp [payloadResourceId, jsOr, h]
  · simp [payloadResourceId, jsOr, h]
  · simp [payloadResourceId, jsOr, h, hs]
  · simp [payloadMode, parseParams, jsOr, strOr, h]
  · simp [payloadMode, parseParams, jsOr, strOr, h]
  · simp [payloadMode, parseParams, jsOr, strOr, h, hs]

/-- Witness for the amended C7. -/
theorem payload_identifier_defaulting_witness :
    payloadLearnerId bobParams = "bob" ∧
    payloadResourceId bobParams = "resource-unknown" ∧
    payloadMode (parseParams emptyQuery) = "learning" :=
  ⟨(payload_identifier_defaulting bobParams emptyQuery).2.2.1 "bob"
      (by decide) rfl,
   (payload_identifier_defaulting bobParams emptyQuery).2.2.2.1 rfl,
   (payload_identifier_defaulting bobParams emptyQuery).2.2.2.2.2.2.1 rfl⟩

/-- C10: after every simulation tick update, the temperature remains in
the closed interval `[100, 250]`, for any prior temperature and any value
of the random drift term. -/
theorem tickTemperature_clamped (t drift : Rat) :
    100 ≤ tickTemperature t drift ∧ tickTemperature t drift ≤ 250 :=
  ⟨le_max_left 100 _,
   max_le (by norm_num) (min_le_left 250 _)⟩

end Simulateur
